import Mathlib

/-!
Verification of the query-classification and retrieval-strategy core of the
RAG CV chatbot (decision_engine.py, vector_store.py, rag_agent.py).

The Python code is shallowly embedded: strings are `String`/`List Char`,
Python dicts with a fixed key set become structures with `Option` fields
(`none` = key absent), fallible collaborators return `Except`, and the
regular-expression rules of the decision engine are transcribed into a small
regex AST together with a backtracking matcher that follows Python `re`
semantics (leftmost match, alternatives tried left to right, greedy
quantifiers with backtracking) for the constructs the rules use.
-/

namespace RagCV

/-! ## Characters: the fragment of Python's `str`/`re` character semantics
used by the repository (ASCII plus the accented Spanish letters occurring in
the rule patterns and the corpus text). -/

/-- Accented lowercase letters appearing in the repository's Spanish text. -/
def accentedLower : List Char := ['á', 'é', 'í', 'ó', 'ú', 'ü', 'ñ']

/-- Accented uppercase letters (Python `str.lower` maps them to
`accentedLower` counterparts). -/
def accentedUpper : List Char := ['Á', 'É', 'Í', 'Ó', 'Ú', 'Ü', 'Ñ']

/-- Python `\s` / `str.strip` whitespace: space, tab, newline, vertical tab,
form feed, carriage return (the ASCII fragment). -/
def pyIsSpace (c : Char) : Bool :=
  c.toNat = 32 || c.toNat = 9 || c.toNat = 10 || c.toNat = 11 || c.toNat = 12 || c.toNat = 13

/-- Python `\w` (word character) on the alphabet the repository manipulates:
ASCII letters, digits, underscore, and the accented Spanish letters. -/
def pyIsWord (c : Char) : Bool :=
  (97 ≤ c.toNat && c.toNat ≤ 122) || (65 ≤ c.toNat && c.toNat ≤ 90) ||
  (48 ≤ c.toNat && c.toNat ≤ 57) || c = '_' ||
  accentedLower.contains c || accentedUpper.contains c

/-- Python `str.lower` on one character, for the alphabet the repository
manipulates: ASCII A–Z plus the accented Spanish uppercase letters. -/
def pyLowerChar (c : Char) : Char :=
  if 65 ≤ c.toNat ∧ c.toNat ≤ 90 then Char.ofNat (c.toNat + 32)
  else if c = 'Á' then 'á'
  else if c = 'É' then 'é'
  else if c = 'Í' then 'í'
  else if c = 'Ó' then 'ó'
  else if c = 'Ú' then 'ú'
  else if c = 'Ü' then 'ü'
  else if c = 'Ñ' then 'ñ'
  else c

/-- Python `str.lower` over a character list. -/
def pyLower (s : List Char) : List Char := s.map pyLowerChar

/-- Python `str.strip`: drop whitespace from both ends. -/
def pyStripL (s : List Char) : List Char :=
  ((s.dropWhile pyIsSpace).reverse.dropWhile pyIsSpace).reverse

/-- Python `str.lower` on a `String`. -/
def pyLowerS (s : String) : String := String.mk (pyLower s.data)

/-- `n` occurs as a contiguous sublist of `h`. -/
def listInfix (n : List Char) : List Char → Bool
  | [] => n.isEmpty
  | c :: t => n.isPrefixOf (c :: t) || listInfix n t

/-- Python `needle in hay` for strings: contiguous substring containment. -/
def pyIn (needle hay : String) : Bool := listInfix needle.data hay.data

/-! ## A regex AST covering the constructs used by decision_engine.py:
literals, single-character classes, concatenation, alternation `(?:a|b)`,
greedy option `?`, greedy `+`/`*` over a character class, and one
`(\w+)`-style capturing group. -/

inductive RE where
  /-- empty regex -/
  | eps
  /-- one literal character -/
  | ch (c : Char)
  /-- one character of a class, e.g. `[ae]`, `[íi]` -/
  | cls (p : Char → Bool)
  /-- concatenation -/
  | seq (a b : RE)
  /-- alternation, left alternative preferred (Python tries left first) -/
  | alt (a b : RE)
  /-- greedy `?` (with first, without on backtracking) -/
  | opt (a : RE)
  /-- greedy `+` over a character class, e.g. `\s+` -/
  | plus (p : Char → Bool)
  /-- greedy `*` over a character class, e.g. `\s*` -/
  | star (p : Char → Bool)
  /-- capturing group around one-or-more of a class, e.g. `(\w+)` -/
  | grp (p : Char → Bool)

/-- `busca` etc.: literal character sequence. -/
def litL : List Char → RE
  | [] => .eps
  | c :: cs => .seq (.ch c) (litL cs)

/-- Literal from a string. -/
def lit (s : String) : RE := litL s.data

/-- Matcher result: `some (rest, capture)` = match succeeded leaving `rest`
of the input, with the capturing group's text if one participated. -/
abbrev MRes := Option (List Char × Option (List Char))

/-- Continuation: remaining input and capture so far. -/
abbrev K := List Char → Option (List Char) → MRes

/-- Maximal run of characters satisfying `p`: `(run, rest)`. -/
def classRun (p : Char → Bool) : List Char → List Char × List Char
  | [] => ([], [])
  | c :: cs =>
      if p c then
        let (r, rest) := classRun p cs
        (c :: r, rest)
      else ([], c :: cs)

/-- Greedy backtracking for `+`/`*` of a class: `pre` is the consumed run in
reverse; try the continuation, then give characters back one at a time.
Fails once everything is given back (the `+` case starts with the full run
and this function refuses the empty consumption). -/
def giveBack (k : K) (cap : Option (List Char)) : List Char → List Char → MRes
  | [], _ => none
  | c :: pre, rest =>
      match k rest cap with
      | some r => some r
      | none => giveBack k cap pre (c :: rest)

/-- Like `giveBack` but also allows consuming nothing (`*`). -/
def giveBack0 (k : K) (cap : Option (List Char)) : List Char → List Char → MRes
  | [], rest => k rest cap
  | c :: pre, rest =>
      match k rest cap with
      | some r => some r
      | none => giveBack0 k cap pre (c :: rest)

/-- Greedy backtracking for a capturing `( class + )` group: the capture is
the consumed run at each stage. -/
def giveBackG (k : K) : List Char → List Char → MRes
  | [], _ => none
  | c :: pre, rest =>
      match k rest (some (c :: pre).reverse) with
      | some r => some r
      | none => giveBackG k pre (c :: rest)

/-- Backtracking matcher in continuation style; explores exactly in Python's
`re` order (leftmost alternative first, greedy quantifiers longest first),
returning the first success. -/
def reMatch : RE → List Char → Option (List Char) → K → MRes
  | .eps, s, cap, k => k s cap
  | .ch c, s, cap, k =>
      match s with
      | [] => none
      | x :: rest => if x = c then k rest cap else none
  | .cls p, s, cap, k =>
      match s with
      | [] => none
      | x :: rest => if p x then k rest cap else none
  | .seq a b, s, cap, k => reMatch a s cap (fun s2 c2 => reMatch b s2 c2 k)
  | .alt a b, s, cap, k =>
      match reMatch a s cap k with
      | some r => some r
      | none => reMatch b s cap k
  | .opt a, s, cap, k =>
      match reMatch a s cap k with
      | some r => some r
      | none => k s cap
  | .plus p, s, cap, k =>
      let (run, rest) := classRun p s
      giveBack k cap run.reverse rest
  | .star p, s, cap, k =>
      let (run, rest) := classRun p s
      giveBack0 k cap run.reverse rest
  | .grp p, s, _, k =>
      let (run, rest) := classRun p s
      giveBackG k run.reverse rest

/-- Top continuation of a search: accept, reporting the rest and capture. -/
def topK : K := fun rest cap => some (rest, cap)

/-- `re.search` scanning: try the regex at each start position from the
left; the leftmost successful position wins. -/
def searchFrom (r : RE) : List Char → MRes
  | [] => reMatch r [] none topK
  | c :: t =>
      match reMatch r (c :: t) none topK with
      | some res => some res
      | none => searchFrom r t

/-- A compiled rule: `anchored` models a leading `^` (without `re.MULTILINE`,
`^` only matches at the start of the input). -/
structure Pattern where
  anchored : Bool
  re : RE

/-- `re.search(pattern, s)`: `some (rest, capture)` on a match. -/
def searchPat (p : Pattern) (s : List Char) : MRes :=
  if p.anchored then reMatch p.re s none topK else searchFrom p.re s

/-! ## decision_engine.py — QueryType and the rule patterns
Each Lean term below transcribes the regex string of `DecisionEngine.__init__`
written directly above it. -/

/-- Python enum `QueryType` (decision_engine.py). -/
inductive QueryType where
  | STUDENT_SEARCH
  | SKILL_QUERY
  | EXPERIENCE_QUERY
  | EDUCATION_QUERY
  | CONTACT_QUERY
  | GENERAL_INFO
  | GREETING
  | UNKNOWN
deriving DecidableEq, Repr

/-- The `.value` string of each enum member. -/
def QueryType.value : QueryType → String
  | .STUDENT_SEARCH => "student_search"
  | .SKILL_QUERY => "skill_query"
  | .EXPERIENCE_QUERY => "experience_query"
  | .EDUCATION_QUERY => "education_query"
  | .CONTACT_QUERY => "contact_query"
  | .GENERAL_INFO => "general_info"
  | .GREETING => "greeting"
  | .UNKNOWN => "unknown"

/-- `\s+` -/
def wsPlus : RE := .plus pyIsSpace

/-- `(\w+)` -/
def wordGrp : RE := .grp pyIsWord

/-- The first STUDENT_SEARCH rule:
`busca[r]?\s+estudiante[s]?\s+(?:llamado[s]?|de nombre|que se llam[ae])\s+(\w+)`. -/
def studentPat1 : Pattern :=
  ⟨false, .seq (lit "busca") (.seq (.opt (.ch 'r')) (.seq wsPlus (.seq (lit "estudiante")
      (.seq (.opt (.ch 's')) (.seq wsPlus (.seq
        (.alt (.seq (lit "llamado") (.opt (.ch 's')))
          (.alt (lit "de nombre")
            (.seq (lit "que se llam") (.cls fun c => c = 'a' || c = 'e'))))
        (.seq wsPlus wordGrp)))))))⟩

/-- `self.patterns[QueryType.STUDENT_SEARCH]`:
`busca[r]?\s+estudiante[s]?\s+(?:llamado[s]?|de nombre|que se llam[ae])\s+(\w+)`,
`estudiante[s]?\s+(?:con nombre|llamado[s]?)\s+(\w+)`,
`quien es\s+(\w+)`, `información de\s+(\w+)`,
`datos de[l]?\s+estudiante\s+(\w+)`. -/
def studentPats : List Pattern :=
  [ studentPat1
  , ⟨false, .seq (lit "estudiante") (.seq (.opt (.ch 's')) (.seq wsPlus (.seq
      (.alt (lit "con nombre") (.seq (lit "llamado") (.opt (.ch 's'))))
      (.seq wsPlus wordGrp))))⟩
  , ⟨false, .seq (lit "quien es") (.seq wsPlus wordGrp)⟩
  , ⟨false, .seq (lit "información de") (.seq wsPlus wordGrp)⟩
  , ⟨false, .seq (lit "datos de") (.seq (.opt (.ch 'l')) (.seq wsPlus
      (.seq (lit "estudiante") (.seq wsPlus wordGrp))))⟩ ]

/-- `self.patterns[QueryType.SKILL_QUERY]`:
`(?:habilidades?|skills?|competencias?|conocimientos?)`,
`(?:sabe|conoce|domina)\s+(?:de\s+)?(\w+)`, `experiencia en\s+(\w+)`,
`tecnolog[íi]as?\s+(?:que\s+)?(?:maneja|conoce|domina)`. -/
def skillPats : List Pattern :=
  [ ⟨false, .alt (.seq (lit "habilidade") (.opt (.ch 's')))
      (.alt (.seq (lit "skill") (.opt (.ch 's')))
        (.alt (.seq (lit "competencia") (.opt (.ch 's')))
          (.seq (lit "conocimiento") (.opt (.ch 's')))))⟩
  , ⟨false, .seq (.alt (lit "sabe") (.alt (lit "conoce") (lit "domina")))
      (.seq wsPlus (.seq (.opt (.seq (lit "de") wsPlus)) wordGrp))⟩
  , ⟨false, .seq (lit "experiencia en") (.seq wsPlus wordGrp)⟩
  , ⟨false, .seq (lit "tecnolog") (.seq (.cls fun c => c = 'í' || c = 'i')
      (.seq (.ch 'a') (.seq (.opt (.ch 's')) (.seq wsPlus
        (.seq (.opt (.seq (lit "que") wsPlus))
          (.alt (lit "maneja") (.alt (lit "conoce") (lit "domina"))))))))⟩ ]

/-- `self.patterns[QueryType.EXPERIENCE_QUERY]`:
`experiencia\s+laboral`, `(?:trabajos?|empleos?)\s+(?:anteriores?|previos?)`,
`(?:dónde|donde)\s+(?:ha\s+)?trabajado`,
`empresas?\s+(?:donde\s+ha\s+trabajado|en\s+las\s+que\s+trabajó)`. -/
def experiencePats : List Pattern :=
  [ ⟨false, .seq (lit "experiencia") (.seq wsPlus (lit "laboral"))⟩
  , ⟨false, .seq (.alt (.seq (lit "trabajo") (.opt (.ch 's')))
      (.seq (lit "empleo") (.opt (.ch 's'))))
      (.seq wsPlus (.alt (.seq (lit "anteriore") (.opt (.ch 's')))
        (.seq (lit "previo") (.opt (.ch 's')))))⟩
  , ⟨false, .seq (.alt (lit "dónde") (lit "donde")) (.seq wsPlus
      (.seq (.opt (.seq (lit "ha") wsPlus)) (lit "trabajado")))⟩
  , ⟨false, .seq (lit "empresa") (.seq (.opt (.ch 's')) (.seq wsPlus
      (.alt (.seq (lit "donde") (.seq wsPlus (.seq (lit "ha") (.seq wsPlus (lit "trabajado")))))
        (.seq (lit "en") (.seq wsPlus (.seq (lit "las") (.seq wsPlus
          (.seq (lit "que") (.seq wsPlus (lit "trabajó"))))))))))⟩ ]

/-- `self.patterns[QueryType.EDUCATION_QUERY]`:
`(?:educación|estudios?|formación)\s+(?:académica?)?`,
`(?:universidad|carrera|titulo|grado)`, `(?:dónde|donde)\s+(?:estudió|estudia)`,
`(?:qué|que)\s+(?:estudió|estudia|carrera)`. -/
def educationPats : List Pattern :=
  [ ⟨false, .seq (.alt (lit "educación")
      (.alt (.seq (lit "estudio") (.opt (.ch 's'))) (lit "formación")))
      (.seq wsPlus (.opt (.seq (lit "académic") (.opt (.ch 'a')))))⟩
  , ⟨false, .alt (lit "universidad") (.alt (lit "carrera") (.alt (lit "titulo") (lit "grado")))⟩
  , ⟨false, .seq (.alt (lit "dónde") (lit "donde")) (.seq wsPlus
      (.alt (lit "estudió") (lit "estudia")))⟩
  , ⟨false, .seq (.alt (lit "qué") (lit "que")) (.seq wsPlus
      (.alt (lit "estudió") (.alt (lit "estudia") (lit "carrera"))))⟩ ]

/-- `self.patterns[QueryType.CONTACT_QUERY]`:
`(?:contacto|teléfono|email|correo|dirección)`,
`(?:cómo|como)\s+(?:contactar|comunicarse)`, `datos\s+de\s+contacto`. -/
def contactPats : List Pattern :=
  [ ⟨false, .alt (lit "contacto") (.alt (lit "teléfono")
      (.alt (lit "email") (.alt (lit "correo") (lit "dirección"))))⟩
  , ⟨false, .seq (.alt (lit "cómo") (lit "como")) (.seq wsPlus
      (.alt (lit "contactar") (lit "comunicarse")))⟩
  , ⟨false, .seq (lit "datos") (.seq wsPlus (.seq (lit "de")
      (.seq wsPlus (lit "contacto"))))⟩ ]

/-- `self.patterns[QueryType.GREETING]` (all anchored by `^`):
`^(?:hola|buenos?\s+días?|buenas?\s+tardes?|buenas?\s+noches?)`,
`^(?:saludos?|hi|hello)`, `^(?:qué\s+tal|como\s+estas?|como\s+está)`. -/
def greetingPats : List Pattern :=
  [ ⟨true, .alt (lit "hola")
      (.alt (.seq (lit "bueno") (.seq (.opt (.ch 's')) (.seq wsPlus
        (.seq (lit "día") (.opt (.ch 's'))))))
        (.alt (.seq (lit "buena") (.seq (.opt (.ch 's')) (.seq wsPlus
          (.seq (lit "tarde") (.opt (.ch 's'))))))
          (.seq (lit "buena") (.seq (.opt (.ch 's')) (.seq wsPlus
            (.seq (lit "noche") (.opt (.ch 's'))))))))⟩
  , ⟨true, .alt (.seq (lit "saludo") (.opt (.ch 's'))) (.alt (lit "hi") (lit "hello"))⟩
  , ⟨true, .alt (.seq (lit "qué") (.seq wsPlus (lit "tal")))
      (.alt (.seq (lit "como") (.seq wsPlus (.seq (lit "esta") (.opt (.ch 's')))))
        (.seq (lit "como") (.seq wsPlus (lit "está"))))⟩ ]

/-- The skill-extraction rules of `DecisionEngine._extract_skill`:
`(?:sabe|conoce|domina)\s+(?:de\s+)?(\w+)`, `experiencia en\s+(\w+)`,
`conocimientos?\s+(?:de|en)\s+(\w+)`. -/
def extractSkillPats : List Pattern :=
  [ ⟨false, .seq (.alt (lit "sabe") (.alt (lit "conoce") (lit "domina")))
      (.seq wsPlus (.seq (.opt (.seq (lit "de") wsPlus)) wordGrp))⟩
  , ⟨false, .seq (lit "experiencia en") (.seq wsPlus wordGrp)⟩
  , ⟨false, .seq (lit "conocimiento") (.seq (.opt (.ch 's')) (.seq wsPlus
      (.seq (.alt (lit "de") (lit "en")) (.seq wsPlus wordGrp))))⟩ ]

/-! ## decision_engine.py — classification -/

/-- `DecisionEngine._match_patterns`: true if any rule of the list matches. -/
def matchPatterns (s : List Char) (ps : List Pattern) : Bool :=
  ps.any fun p => (searchPat p s).isSome

/-- The extraction loop shared by `_extract_student_name` and
`_extract_skill`: return `group(1).strip()` of the first matching rule.
(Every rule in the lists it is used with has a mandatory `(\w+)` group, so a
match always carries a capture; `getD []` is never exercised.) -/
def extractFirst : List Pattern → List Char → Option (List Char)
  | [], _ => none
  | p :: ps, s =>
      match searchPat p s with
      | some (_, cap) => some (pyStripL (cap.getD []))
      | none => extractFirst ps s

/-- `DecisionEngine._extract_student_name`. -/
def extractStudentName (s : List Char) : Option (List Char) :=
  extractFirst studentPats s

/-- `DecisionEngine._extract_skill`. -/
def extractSkill (s : List Char) : Option (List Char) :=
  extractFirst extractSkillPats s

/-- Python truthiness of the extraction result (`None` and `""` are falsy). -/
def truthy : Option (List Char) → Bool
  | none => false
  | some s => !s.isEmpty

/-- The extracted-entities dictionary: each field is `some v` exactly when
the corresponding key is present. -/
structure ExtractedInfo where
  student_name : Option String := none
  skill : Option String := none
deriving DecidableEq, Repr

/-- `query.lower().strip()` — the normalized query text. -/
def normQuery (q : String) : List Char := pyStripL (pyLower q.data)

/-- The conditional-edge chain of `DecisionEngine.analyze_query`, on the
already-normalized text. -/
def analyzeCore (ql : List Char) : QueryType × ExtractedInfo :=
  if matchPatterns ql greetingPats then (.GREETING, {})
  else
    let studentMatch := extractStudentName ql
    if truthy studentMatch then
      (.STUDENT_SEARCH, { student_name := some (String.mk (studentMatch.getD [])) })
    else if matchPatterns ql skillPats then
      let skillMatch := extractSkill ql
      if truthy skillMatch then
        (.SKILL_QUERY, { skill := some (String.mk (skillMatch.getD [])) })
      else (.SKILL_QUERY, {})
    else if matchPatterns ql experiencePats then (.EXPERIENCE_QUERY, {})
    else if matchPatterns ql educationPats then (.EDUCATION_QUERY, {})
    else if matchPatterns ql contactPats then (.CONTACT_QUERY, {})
    else (.GENERAL_INFO, {})

/-- `DecisionEngine.analyze_query`. -/
def analyzeQuery (query : String) : QueryType × ExtractedInfo :=
  analyzeCore (normQuery query)

/-! ## decision_engine.py — strategy resolver and RAG gate -/

/-- The `search_filters` dictionary: each field is `some v` exactly when the
key is present; the inner `Option` is the value (`none` models Python
`None`, as stored by `extracted_info.get(...)`). -/
structure Filters where
  student_name : Option (Option String) := none
  skill : Option (Option String) := none
deriving DecidableEq, Repr

/-- The strategy dictionary returned by `get_search_strategy`. -/
structure SearchStrategy where
  use_vector_search : Bool
  search_filters : Filters
  response_template : String
  max_results : Nat
deriving DecidableEq, Repr

/-- `DecisionEngine.get_search_strategy`. -/
def getSearchStrategy (query_type : QueryType) (extracted_info : ExtractedInfo) :
    SearchStrategy :=
  let strategy : SearchStrategy :=
    { use_vector_search := true, search_filters := {},
      response_template := "default", max_results := 5 }
  match query_type with
  | .STUDENT_SEARCH =>
      { strategy with
        search_filters := { strategy.search_filters with
                            student_name := some extracted_info.student_name },
        response_template := "student_profile", max_results := 1 }
  | .SKILL_QUERY =>
      { strategy with
        search_filters := { strategy.search_filters with
                            skill := some extracted_info.skill },
        response_template := "skill_focused", max_results := 3 }
  | .EXPERIENCE_QUERY =>
      { strategy with response_template := "experience_focused", max_results := 5 }
  | .EDUCATION_QUERY =>
      { strategy with response_template := "education_focused", max_results := 5 }
  | .CONTACT_QUERY =>
      { strategy with response_template := "contact_focused", max_results := 3 }
  | .GREETING =>
      { strategy with use_vector_search := false, response_template := "greeting" }
  | _ => strategy

/-- `DecisionEngine.should_use_rag`: false for GREETING and UNKNOWN. -/
def shouldUseRag (query_type : QueryType) : Bool :=
  !(query_type = .GREETING || query_type = .UNKNOWN)

/-! ## vector_store.py — metadata and filter semantics -/

/-- Document metadata consumed by the filters; each field is `some v`
exactly when the key is present in the Python dict. -/
structure Metadata where
  filename : Option String := none
  student_name : Option String := none
  skills : Option (List String) := none
deriving DecidableEq, Repr

/-- Python truthiness of `filters.get(key)`: the key is present and its
value is a nonempty string. -/
def filterGet : Option (Option String) → Option String
  | some (some s) => if s.isEmpty then none else some s
  | _ => none

/-- `VectorStoreManager._apply_filters` (the FAISS post-filter): sequential
early-return checks; the student-name and skill checks are case-insensitive
substring tests. -/
def applyFilters (metadata : Metadata) (filters : Filters) : Bool :=
  if filters.student_name = none ∧ filters.skill = none then true
  else if (match filterGet filters.student_name with
           | some n => !pyIn (pyLowerS n) (pyLowerS (metadata.student_name.getD ""))
           | none => false) then false
  else if (match filterGet filters.skill with
           | some sk =>
               !pyIn (pyLowerS sk)
                 (pyLowerS (String.intercalate " " (metadata.skills.getD [])))
           | none => false) then false
  else true

/-- The native Pinecone filter dictionary built by
`VectorStoreManager._search_pinecone`: `student_name: {eq: n}` and
`skills: {regex: .*sk.*}` for the truthy filter entries. -/
structure PineconeFilter where
  student_name_eq : Option String := none
  skills_regex_sub : Option String := none
deriving DecidableEq, Repr

/-- The filter-dictionary construction of `_search_pinecone`. -/
def buildPineconeFilter (filters : Filters) : PineconeFilter :=
  { student_name_eq := filterGet filters.student_name,
    skills_regex_sub := filterGet filters.skill }

/-- Python `str(list_of_strings)`: `[\x27a\x27, \x27b\x27]` (repr escaping
of quotes inside the items is not modelled; the repository's skill strings
contain none). -/
def pyStrOfList (l : List String) : String :=
  "[" ++ String.intercalate ", " (l.map fun s => "\x27" ++ s ++ "\x27") ++ "]"

/-- The `student_name` metadata value stored for a document by
`_add_to_pinecone` (`doc.metadata.get(\x27student_name\x27, \x27\x27)`). -/
def pineconeStoredName (metadata : Metadata) : String :=
  metadata.student_name.getD ""

/-- The `skills` metadata value stored by `_add_to_pinecone`
(`str(doc.metadata.get(\x27skills\x27, []))`). -/
def pineconeStoredSkills (metadata : Metadata) : String :=
  pyStrOfList (metadata.skills.getD [])

/-- Modelled from the spec: the managed vector database evaluates the native
query filter of `_search_pinecone` on stored metadata — an `eq` constraint
is exact string equality and the regex `.*sk.*` accepts exactly the strings
containing `sk` as a (case-sensitive) substring. The evaluation itself runs
inside the external Pinecone service, which is not part of src/. -/
def pineconeFilterAccepts (metadata : Metadata) (filters : Filters) : Bool :=
  let pf := buildPineconeFilter filters
  (match pf.student_name_eq with
   | some n => pineconeStoredName metadata = n
   | none => true)
  && (match pf.skills_regex_sub with
      | some sk => pyIn sk (pineconeStoredSkills metadata)
      | none => true)

/-! ## decision_engine.py — ResponseTemplates -/

/-- `ResponseTemplates` dictionary entries (byte-exact, including the
trailing space of the first greeting line and the 12-space indentation of
the triple-quoted source literals). -/
def greetingTemplate : String :=
  "¡Hola! Soy tu asistente para consultas sobre CVs de estudiantes. \n            Puedo ayudarte a:\n            - Buscar información específica de estudiantes\n            - Consultar habilidades y competencias\n            - Revisar experiencia laboral\n            - Verificar información educativa\n            - Obtener datos de contacto\n            \n            ¿En qué puedo ayudarte hoy?"

/-- `templates["student_profile"]`. -/
def studentProfileTemplate : String :=
  "Basándome en la información encontrada sobre {student_name}:\n            \n            {context}\n            \n            Esta información proviene de los CVs almacenados en nuestra base de datos."

/-- `templates["skill_focused"]`. -/
def skillFocusedTemplate : String :=
  "Información sobre habilidades en {skill}:\n            \n            {context}\n            \n            Estos datos han sido extraídos de los CVs de estudiantes disponibles."

/-- `templates["experience_focused"]`. -/
def experienceFocusedTemplate : String :=
  "Información sobre experiencia laboral:\n            \n            {context}\n            \n            Datos recopilados de los CVs de estudiantes."

/-- `templates["education_focused"]`. -/
def educationFocusedTemplate : String :=
  "Información educativa encontrada:\n            \n            {context}\n            \n            Información extraída de los CVs académicos."

/-- `templates["contact_focused"]`. -/
def contactFocusedTemplate : String :=
  "Datos de contacto disponibles:\n            \n            {context}\n            \n            Información de contacto de los CVs."

/-- `templates["default"]`. -/
def defaultTemplate : String :=
  "Basándome en la información disponible:\n            \n            {context}\n            \n            Esta respuesta se basa en los CVs de estudiantes almacenados."

/-- `ResponseTemplates.get_template` (`templates.get(t, templates["default"])`). -/
def getTemplate (template_type : String) : String :=
  if template_type = "greeting" then greetingTemplate
  else if template_type = "student_profile" then studentProfileTemplate
  else if template_type = "skill_focused" then skillFocusedTemplate
  else if template_type = "experience_focused" then experienceFocusedTemplate
  else if template_type = "education_focused" then educationFocusedTemplate
  else if template_type = "contact_focused" then contactFocusedTemplate
  else defaultTemplate

/-! ## Python `str.format` (the fragment the repository uses: named
placeholders, no escapes, no format specs). A placeholder naming a missing
key raises `KeyError`; an unterminated brace raises `ValueError` — both are
exceptions, modelled as `.error`. -/

/-- The brace characters, by code point. -/
def lbrace : Char := Char.ofNat 123

/-- Closing brace. -/
def rbrace : Char := Char.ofNat 125

/-- Read up to the closing brace: `some (key, rest-after-brace)`. -/
def splitKey : List Char → Option (List Char × List Char)
  | [] => none
  | c :: rest =>
      if c = rbrace then some ([], rest)
      else
        match splitKey rest with
        | some (k, a) => some (c :: k, a)
        | none => none

/-- Formatter body; fuel exceeds the template length, so `0` is never hit. -/
def pyFormatAux (kwargs : List (String × String)) : Nat → List Char → Except String (List Char)
  | 0, _ => .error "out of fuel"
  | fuel + 1, [] => .ok []
  | fuel + 1, c :: rest =>
      if c = lbrace then
        match splitKey rest with
        | none => .error "ValueError"
        | some (key, after) =>
            match kwargs.lookup (String.mk key) with
            | none => .error "KeyError"
            | some v =>
                match pyFormatAux kwargs fuel after with
                | .ok tail => .ok (v.data ++ tail)
                | .error e => .error e
      else
        match pyFormatAux kwargs fuel rest with
        | .ok tail => .ok (c :: tail)
        | .error e => .error e

/-- `template.format(**kwargs)`. -/
def pyFormat (kwargs : List (String × String)) (template : String) : Except String String :=
  match pyFormatAux kwargs (template.data.length + 1) template.data with
  | .ok out => .ok (String.mk out)
  | .error e => .error e

/-! ## rag_agent.py — orchestration -/

/-- A formatted search result (`{content, metadata, score}`); the floating
point similarity score only flows into the context block through its
`"%.3f"` rendering, so it is carried as that rendered text. -/
structure SearchResult where
  content : String
  metadata : Metadata
  scoreText : String
deriving DecidableEq, Repr

/-- The response dictionary returned by `RAGAgent.query`;
`context_used` is `none` on the paths that do not set the key. -/
structure RAGResponse where
  answer : String
  query_type : String
  sources : List String
  confidence : String
  context_used : Option Bool := none
deriving DecidableEq, Repr

/-- `RAGAgent._get_system_prompt` (byte-exact). -/
def systemPromptTemplate : String :=
  "Eres un asistente especializado en información de CVs de estudiantes. \nTu función es ayudar a los usuarios a encontrar información específica sobre estudiantes basándote en los CVs almacenados.\n\nCONTEXTO RECUPERADO:\n{context}\n\nTIPO DE CONSULTA: {query_type}\n\nCONSULTA DEL USUARIO: {question}\n\nINSTRUCCIONES:\n1. Utiliza ÚNICAMENTE la información proporcionada en el contexto para responder\n2. Si el contexto no contiene información suficiente, indícalo claramente\n3. Sé específico y detallado en tus respuestas\n4. Mantén un tono profesional y útil\n5. Si mencionas nombres de estudiantes, asegúrate de que estén en el contexto\n6. Para consultas sobre habilidades, experiencia o educación, organiza la información de manera clara\n\nRESPUESTA:"

/-- `self.prompt_template.format(context=..., question=..., query_type=...)`. -/
def buildPrompt (context question query_type_value : String) : Except String String :=
  pyFormat [("context", context), ("question", question),
            ("query_type", query_type_value)] systemPromptTemplate

/-- One entry of the context block built by `RAGAgent._build_context`
(the f-string, with `content[:500]` and the `Desconocido` defaults). -/
def contextPart (i : Nat) (result : SearchResult) : String :=
  "\nDOCUMENTO " ++ toString i ++ ":\nArchivo: " ++ (result.metadata.filename.getD "Desconocido")
  ++ "\nEstudiante: " ++ (result.metadata.student_name.getD "Desconocido")
  ++ "\nContenido: " ++ String.mk (result.content.data.take 500)
  ++ "\nPuntuación: " ++ result.scoreText ++ "\n---"

/-- `enumerate(search_results, 1)` over the context parts. -/
def buildParts : Nat → List SearchResult → List String
  | _, [] => []
  | i, r :: rs => contextPart i r :: buildParts (i + 1) rs

/-- `RAGAgent._build_context`. -/
def buildContext (search_results : List SearchResult) : String :=
  String.intercalate "\n" (buildParts 1 search_results)

/-- The `re.findall` pattern of `_extract_sources_from_context`:
`Archivo:\s*([^\n]+)`. -/
def sourceRE : RE :=
  .seq (lit "Archivo:") (.seq (.star pyIsSpace) (.grp fun c => !(c = '\n')))

/-- `re.findall` group extraction: repeated non-overlapping leftmost
searches (every match of `sourceRE` consumes at least the literal
`Archivo:`, so the fuel of one unit per character is never exhausted). -/
def findAllCaps (r : RE) : Nat → List Char → List (List Char)
  | 0, _ => []
  | fuel + 1, s =>
      match searchFrom r s with
      | some (rest, cap) => cap.getD [] :: findAllCaps r fuel rest
      | none => []

/-- `RAGAgent._extract_sources_from_context`; `list(set(...))` has
unspecified order in Python, modelled as first-occurrence deduplication. -/
def extractSources (context : String) : List String :=
  (((findAllCaps sourceRE (context.data.length + 1) context.data).map String.mk).eraseDups)

/-- `RAGAgent._calculate_confidence`. -/
def calculateConfidence (context answer : String) : String :=
  if context = "" then "low"
  else if context.length > 1000 && !pyIn "Desconocido" answer then "high"
  else if context.length > 500 then "medium"
  else "low"

/-- `RAGAgent._handle_non_rag_query` (the `question` argument is unused by
the Python body as well). -/
def handleNonRagQuery (query_type : QueryType) (question : String) : RAGResponse :=
  if query_type = .GREETING then
    { answer := getTemplate "greeting", query_type := query_type.value,
      sources := [], confidence := "high" }
  else
    { answer := "No pude entender tu consulta. ¿Podrías reformularla?",
      query_type := query_type.value, sources := [], confidence := "low" }

/-- The `str()` of a filter value passed through `format(**filters)`. -/
def pyStrOpt : Option String → String
  | none => "None"
  | some s => s

/-- The keyword arguments contributed by `**search_filters`. -/
def filterKwargs (filters : Filters) : List (String × String) :=
  (match filters.student_name with
   | some v => [("student_name", pyStrOpt v)]
   | none => [])
  ++ (match filters.skill with
      | some v => [("skill", pyStrOpt v)]
      | none => [])

/-- The `try` body of `RAGAgent._generate_response`: build the prompt,
invoke the LLM collaborator, apply the response template, and assemble the
response record. Any exception (collaborator failure, `KeyError` from
`format`) surfaces as `.error`. -/
def tryGenerate (llm : String → Except String String) (question context : String)
    (query_type : QueryType) (search_strategy : SearchStrategy) :
    Except String RAGResponse := do
  let prompt ← buildPrompt context question query_type.value
  let raw ← llm prompt
  let answer ←
    (if search_strategy.response_template ≠ "default" then
      let template := getTemplate search_strategy.response_template
      if pyIn "{context}" template then
        pyFormat (("context", raw) :: filterKwargs search_strategy.search_filters) template
      else .ok raw
    else .ok raw)
  .ok { answer := answer, query_type := query_type.value,
        sources := extractSources context,
        confidence := calculateConfidence context answer,
        context_used := some (context.length > 0) }

/-- `RAGAgent._generate_response`: the `except` clause converts any failure
into the fixed apology with confidence "error". -/
def generateResponse (llm : String → Except String String) (question context : String)
    (query_type : QueryType) (search_strategy : SearchStrategy) : RAGResponse :=
  match tryGenerate llm question context query_type search_strategy with
  | .ok r => r
  | .error _ =>
      { answer := "Lo siento, ocurrió un error al generar la respuesta. Por favor, intenta de nuevo.",
        query_type := query_type.value, sources := [], confidence := "error" }

/-- `RAGAgent.query`, with the two external collaborators passed explicitly:
`searchFn` is `self.vector_store.search` (its exceptions are NOT caught
here — the `try` lives inside `_generate_response` only) and `llm` is the
hosted model. The conversation-history append mutates agent state and does
not affect the returned record, so it is not modelled. -/
def ragQuery (searchFn : String → Nat → Filters → Except String (List SearchResult))
    (llm : String → Except String String) (user_question : String) :
    Except String RAGResponse := do
  let (query_type, extracted_info) := analyzeQuery user_question
  let search_strategy := getSearchStrategy query_type extracted_info
  if !shouldUseRag query_type then
    .ok (handleNonRagQuery query_type user_question)
  else do
    let search_results ← searchFn user_question search_strategy.max_results
        search_strategy.search_filters
    if search_results.isEmpty then
      .ok { answer := "Lo siento, no encontré información relevante para tu consulta en los CVs almacenados.",
            query_type := query_type.value, sources := [], confidence := "low" }
    else
      .ok (generateResponse llm user_question (buildContext search_results)
            query_type search_strategy)

/-! ## Helper lemmas -/

/-- A list is a prefix of itself. -/
lemma isPrefixOf_self : ∀ l : List Char, l.isPrefixOf l = true
  | [] => rfl
  | c :: t => by simp [List.isPrefixOf, isPrefixOf_self t]

/-- A list occurs inside itself. -/
lemma listInfix_self : ∀ l : List Char, listInfix l l = true
  | [] => rfl
  | c :: t => by simp [listInfix, isPrefixOf_self]

/-- Every string contains itself (`s in s` is true in Python). -/
lemma pyIn_self (s : String) : pyIn s s = true := listInfix_self s.data

/-! ## Claim theorems -/

/-- C2: for every category and entity set, `get_search_strategy` returns
exactly the configuration of the fixed mapping table: greeting disables
retrieval with template "greeting"; student-lookup retrieves 1 result with a
name filter from `entities.student_name` and template "student_profile";
skill-lookup retrieves 3 with a skill filter and template "skill_focused";
experience- and education-lookup retrieve 5 with no filter and their focused
templates; contact-lookup retrieves 3 with no filter; general-info and
unknown retrieve 5 with no filter and template "default". -/
theorem c2_strategy_table (info : ExtractedInfo) :
    getSearchStrategy .GREETING info
      = { use_vector_search := false, search_filters := {},
          response_template := "greeting", max_results := 5 }
    ∧ getSearchStrategy .STUDENT_SEARCH info
      = { use_vector_search := true,
          search_filters := { student_name := some info.student_name },
          response_template := "student_profile", max_results := 1 }
    ∧ getSearchStrategy .SKILL_QUERY info
      = { use_vector_search := true,
          search_filters := { skill := some info.skill },
          response_template := "skill_focused", max_results := 3 }
    ∧ getSearchStrategy .EXPERIENCE_QUERY info
      = { use_vector_search := true, search_filters := {},
          response_template := "experience_focused", max_results := 5 }
    ∧ getSearchStrategy .EDUCATION_QUERY info
      = { use_vector_search := true, search_filters := {},
          response_template := "education_focused", max_results := 5 }
    ∧ getSearchStrategy .CONTACT_QUERY info
      = { use_vector_search := true, search_filters := {},
          response_template := "contact_focused", max_results := 3 }
    ∧ getSearchStrategy .GENERAL_INFO info
      = { use_vector_search := true, search_filters := {},
          response_template := "default", max_results := 5 }
    ∧ getSearchStrategy .UNKNOWN info
      = { use_vector_search := true, search_filters := {},
          response_template := "default", max_results := 5 } :=
  ⟨rfl, rfl, rfl, rfl, rfl, rfl, rfl, rfl⟩

/-- C9: on the successful synthesis path the confidence label is a
deterministic function of context and answer: "high" iff the context is
longer than 1000 characters AND the answer does not contain the
unknown-marker "Desconocido"; otherwise "medium" iff the context is longer
than 500 characters; otherwise "low". -/
theorem c9_confidence_policy (context answer : String) :
    (calculateConfidence context answer = "high"
      ↔ (1000 < context.length ∧ pyIn "Desconocido" answer = false))
    ∧ (calculateConfidence context answer = "medium"
      ↔ (¬(1000 < context.length ∧ pyIn "Desconocido" answer = false)
          ∧ 500 < context.length))
    ∧ (calculateConfidence context answer = "low"
      ↔ (¬(1000 < context.length ∧ pyIn "Desconocido" answer = false)
          ∧ ¬500 < context.length)) := by
  rcases Bool.eq_false_or_eq_true (pyIn "Desconocido" answer) with hb | hb <;>
    by_cases hc : context = "" <;>
    by_cases hl1 : 1000 < context.length <;>
    by_cases hl2 : 500 < context.length <;>
    simp [calculateConfidence, hb, hc, hl1, hl2]

/-- The passage-filter predicate as the specification words it, for
comparison with the implementation `applyFilters`: "when a student_name
filter is present, the record's name EQUALS entities.student_name", and the
skill sub-predicate is a substring test. -/
def specApplyFilters (metadata : Metadata) (filters : Filters) : Bool :=
  (match filterGet filters.student_name with
   | some n => metadata.student_name.getD "" = n
   | none => true)
  && (match filterGet filters.skill with
      | some sk => pyIn (pyLowerS sk)
          (pyLowerS (String.intercalate " " (metadata.skills.getD [])))
      | none => true)

/-- C3 counterexample: with the filter `student_name = "ana"` and a record
named "Mariana", the implementation accepts the record (its name check is a
case-insensitive SUBSTRING test, `"ana" in "mariana"`), while the claim's
equality sub-predicate rejects it — so `_apply_filters` does not implement
the claimed name-equality conjunction. -/
theorem c3_counterexample :
    applyFilters { student_name := some "Mariana" }
        { student_name := some (some "ana") } = true
    ∧ specApplyFilters { student_name := some "Mariana" }
        { student_name := some (some "ana") } = false := by decide

/-- C3 amended: `_apply_filters` accepts a record iff a conjunction of
independent sub-predicates holds — when a student_name filter is present,
the filter name occurs case-insensitively as a substring of the record's
name, and when a skill filter is present, the skill occurs
case-insensitively as a substring of the space-joined skills — and the
predicate is a conjunction, never a disjunction, of these sub-predicates. -/
theorem c3_filter_conjunction (metadata : Metadata) (filters : Filters) :
    applyFilters metadata filters =
      ((match filterGet filters.student_name with
        | some n => pyIn (pyLowerS n) (pyLowerS (metadata.student_name.getD ""))
        | none => true)
       && (match filterGet filters.skill with
           | some sk => pyIn (pyLowerS sk)
               (pyLowerS (String.intercalate " " (metadata.skills.getD [])))
           | none => true)) := by
  unfold applyFilters
  by_cases h : filters.student_name = none ∧ filters.skill = none
  · rcases h with ⟨h1, h2⟩
    simp [h1, h2, filterGet]
  · rw [if_neg h]
    cases hn : filterGet filters.student_name <;>
      cases hs : filterGet filters.skill <;>
        simp [hn, hs]

/-- C7 counterexample: the two retrieval backends do NOT honor identical
filter semantics. For the filter `student_name = "maria"` and a stored
record named "Maria", the FAISS post-filter accepts (case-insensitive
substring test) while the Pinecone native filter rejects (case-sensitive
`eq` on the stored name) — the accepted-result sets differ. -/
theorem c7_counterexample :
    applyFilters { student_name := some "Maria" }
        { student_name := some (some "maria") } = true
    ∧ pineconeFilterAccepts { student_name := some "Maria" }
        { student_name := some (some "maria") } = false := by decide

/-- C7 amended: the backends' filter semantics differ — Pinecone's native
filter applies exact case-sensitive equality on the record's name, FAISS's
post-filter a case-insensitive substring test. For a name-only filter the
containment one direction does hold: every record accepted by the Pinecone
native filter is also accepted by the FAISS post-filter (equality implies
substring); the converse fails, per the counterexample. -/
theorem c7_pinecone_accept_subset_faiss (metadata : Metadata) (n : String)
    (h : pineconeFilterAccepts metadata { student_name := some (some n) } = true) :
    applyFilters metadata { student_name := some (some n) } = true := by
  unfold pineconeFilterAccepts buildPineconeFilter at h
  unfold applyFilters
  by_cases he : n.isEmpty
  · simp [filterGet, he]
  · simp only [filterGet, he, if_false, Bool.and_eq_true] at h
    simp only [filterGet, he]
    rcases h with ⟨h1, _⟩
    simp at h1
    unfold pineconeStoredName at h1
    simp [h1, pyIn_self]

/-- C7 witness: the amended implication applied at a concrete record and
filter whose name matches exactly. -/
theorem c7_witness :
    pineconeFilterAccepts { student_name := some "Maria" }
        { student_name := some (some "Maria") } = true
    ∧ applyFilters { student_name := some "Maria" }
        { student_name := some (some "Maria") } = true :=
  ⟨by decide, c7_pinecone_accept_subset_faiss
      { student_name := some "Maria" } "Maria" (by decide)⟩

/-- `pyLowerChar` fixes every character that is neither an ASCII capital nor
an accented capital (the latter all have code points above 122). -/
lemma pyLowerChar_id {c : Char} (hle : c.toNat ≤ 122)
    (hup : ¬(65 ≤ c.toNat ∧ c.toNat ≤ 90)) : pyLowerChar c = c := by
  have e1 : c ≠ 'Á' := by intro h; rw [h] at hle; exact absurd hle (by decide)
  have e2 : c ≠ 'É' := by intro h; rw [h] at hle; exact absurd hle (by decide)
  have e3 : c ≠ 'Í' := by intro h; rw [h] at hle; exact absurd hle (by decide)
  have e4 : c ≠ 'Ó' := by intro h; rw [h] at hle; exact absurd hle (by decide)
  have e5 : c ≠ 'Ú' := by intro h; rw [h] at hle; exact absurd hle (by decide)
  have e6 : c ≠ 'Ü' := by intro h; rw [h] at hle; exact absurd hle (by decide)
  have e7 : c ≠ 'Ñ' := by intro h; rw [h] at hle; exact absurd hle (by decide)
  simp only [pyLowerChar, if_neg hup, if_neg e1, if_neg e2, if_neg e3, if_neg e4,
    if_neg e5, if_neg e6, if_neg e7]

/-- Whitespace characters have code points at most 32. -/
lemma pyIsSpace_toNat {c : Char} (h : pyIsSpace c = true) : c.toNat ≤ 32 := by
  simp only [pyIsSpace, Bool.or_eq_true, decide_eq_true_eq] at h
  omega

/-- A map that fixes every element of a list fixes the list. -/
lemma map_id_of {f : Char → Char} : ∀ l : List Char, (∀ c ∈ l, f c = c) → l.map f = l
  | [], _ => rfl
  | c :: t, h => by
      simp only [List.map_cons, h c (by simp)]
      rw [map_id_of t fun x hx => h x (by simp [hx])]

/-- `dropWhile` exhausts a list all of whose elements satisfy the test. -/
lemma dropWhile_nil_of_all {p : Char → Bool} :
    ∀ l : List Char, (∀ c ∈ l, p c = true) → l.dropWhile p = []
  | [], _ => rfl
  | c :: t, h => by
      simp only [List.dropWhile_cons, h c (by simp), if_true]
      exact dropWhile_nil_of_all t fun x hx => h x (by simp [hx])

/-- The classifier never produces `UNKNOWN` (shared by C8 and C10). -/
lemma analyzeCore_fst_ne_unknown (ql : List Char) : (analyzeCore ql).1 ≠ .UNKNOWN := by
  unfold analyzeCore
  by_cases h1 : matchPatterns ql greetingPats = true <;>
  by_cases h2 : truthy (extractStudentName ql) = true <;>
  by_cases h3 : matchPatterns ql skillPats = true <;>
  by_cases h4 : truthy (extractSkill ql) = true <;>
  by_cases h5 : matchPatterns ql experiencePats = true <;>
  by_cases h6 : matchPatterns ql educationPats = true <;>
  by_cases h7 : matchPatterns ql contactPats = true <;>
  simp [h1, h2, h3, h4, h5, h6, h7]

/-- C5: classification is total by construction (`analyzeQuery` is a total
function assigning exactly one category), and the substantive edge case
holds: every empty or whitespace-only input normalizes to the empty string,
no rule matches it, and the result is general-info with an empty entity
set. -/
theorem c5_whitespace_general_info (q : String)
    (h : ∀ c ∈ q.data, pyIsSpace c = true) :
    analyzeQuery q = (.GENERAL_INFO, {}) := by
  have hlow : ∀ c ∈ q.data, pyLowerChar c = c := by
    intro c hc
    have := pyIsSpace_toNat (h c hc)
    exact pyLowerChar_id (by omega) (by omega)
  have hql : normQuery q = [] := by
    unfold normQuery pyLower pyStripL
    rw [map_id_of q.data hlow, dropWhile_nil_of_all q.data h]
    rfl
  unfold analyzeQuery
  rw [hql]
  decide

/-- C5 witness: the theorem applied to the all-whitespace input `" \t "`
(and the hypothesis also holds for the empty string). -/
theorem c5_witness :
    (∀ c ∈ (" \t ").data, pyIsSpace c = true)
    ∧ analyzeQuery " \t " = (.GENERAL_INFO, {})
    ∧ (∀ c ∈ ("").data, pyIsSpace c = true)
    ∧ analyzeQuery "" = (.GENERAL_INFO, {}) :=
  ⟨by decide, c5_whitespace_general_info " \t " (by decide),
   by decide, c5_whitespace_general_info "" (by decide)⟩

/-- Inversion for a successful `Except` bind. -/
lemma except_bind_ok {α β : Type} {x : Except String α} {f : α → Except String β} {b : β}
    (h : (x >>= f) = .ok b) : ∃ a, x = .ok a ∧ f a = .ok b := by
  cases x with
  | error e => exact Except.noConfusion h
  | ok a => exact ⟨a, rfl, h⟩

/-- A successful `try` body of `_generate_response` carries the query
type's `.value`. -/
lemma tryGenerate_ok_query_type {llm : String → Except String String}
    {question context : String} {qt : QueryType} {st : SearchStrategy} {r : RAGResponse}
    (h : tryGenerate llm question context qt st = .ok r) : r.query_type = qt.value := by
  unfold tryGenerate at h
  obtain ⟨prompt, _, h⟩ := except_bind_ok h
  obtain ⟨raw, _, h⟩ := except_bind_ok h
  obtain ⟨answer, _, h⟩ := except_bind_ok h
  cases h
  rfl

/-- `_generate_response` always reports the query type's `.value`. -/
lemma generateResponse_query_type (llm : String → Except String String)
    (question context : String) (qt : QueryType) (st : SearchStrategy) :
    (generateResponse llm question context qt st).query_type = qt.value := by
  unfold generateResponse
  cases htg : tryGenerate llm question context qt st with
  | ok r => exact tryGenerate_ok_query_type htg
  | error e => rfl

set_option maxRecDepth 8192

/-- Equality of `Except` results is decidable (used to evaluate the
orchestrator on concrete inputs). -/
instance exceptDecEq {ε α : Type} [DecidableEq ε] [DecidableEq α] :
    DecidableEq (Except ε α) := fun a b =>
  match a, b with
  | .error e, .error f =>
      match decEq e f with
      | .isTrue h => .isTrue (h ▸ rfl)
      | .isFalse h => .isFalse fun hc => h (by cases hc; rfl)
  | .error _, .ok _ => .isFalse fun hc => Except.noConfusion hc
  | .ok _, .error _ => .isFalse fun hc => Except.noConfusion hc
  | .ok x, .ok y =>
      match decEq x y with
      | .isTrue h => .isTrue (h ▸ rfl)
      | .isFalse h => .isFalse fun hc => h (by cases hc; rfl)

/-- Every record successfully returned by `query` reports the classified
category's `.value`. -/
lemma ragQuery_ok_query_type
    {searchFn : String → Nat → Filters → Except String (List SearchResult)}
    {llm : String → Except String String} {q : String} {r : RAGResponse}
    (h : ragQuery searchFn llm q = .ok r) : r.query_type = (analyzeQuery q).1.value := by
  unfold ragQuery at h
  rcases hqa : analyzeQuery q with ⟨qt, info⟩
  rw [hqa] at h
  simp only at h
  by_cases hrag : shouldUseRag qt
  · rw [hrag] at h
    simp only [Bool.not_true, Bool.false_eq_true, if_false] at h
    obtain ⟨results, _, h⟩ := except_bind_ok h
    by_cases hre : results.isEmpty
    · rw [if_pos hre] at h
      cases h
      simp [hqa]
    · rw [if_neg hre] at h
      cases h
      simp only [hqa]
      exact generateResponse_query_type _ _ _ _ _
  · have hrag' : shouldUseRag qt = false := by
      cases hsr : shouldUseRag qt
      · rfl
      · exact absurd hsr hrag
    rw [hrag'] at h
    simp only [Bool.not_false, if_true] at h
    cases h
    simp only [hqa]
    unfold handleNonRagQuery
    split <;> rfl

/-- The `.value` strings of the eight enum members are distinct from
"unknown" away from `UNKNOWN`. -/
lemma value_ne_unknown {qt : QueryType} (h : qt ≠ .UNKNOWN) : qt.value ≠ "unknown" := by
  cases qt <;> first | exact absurd rfl h | decide

/-- If the classified category is not `GREETING`, retrieval is used
(`UNKNOWN` is never produced by the classifier). -/
lemma shouldUseRag_of_ne_greeting {q : String}
    (h : (analyzeQuery q).1 ≠ .GREETING) : shouldUseRag (analyzeQuery q).1 = true := by
  have hne := analyzeCore_fst_ne_unknown (normQuery q)
  unfold shouldUseRag
  cases hc : (analyzeQuery q).1 <;> simp_all [analyzeQuery]

/-- `_generate_response` converts an LLM failure into the fixed apology
record with confidence "error". -/
lemma generateResponse_llm_error (msg question context : String) (qt : QueryType)
    (st : SearchStrategy) :
    generateResponse (fun _ => .error msg) question context qt st
      = { answer := "Lo siento, ocurrió un error al generar la respuesta. Por favor, intenta de nuevo.",
          query_type := qt.value, sources := [], confidence := "error" } := by
  unfold generateResponse tryGenerate
  cases hp : buildPrompt context question qt.value <;> rfl

/-- C8: for a query whose retrieval returns the empty result sequence, the
orchestrator returns (without raising — the result is `.ok`) the fixed
non-empty "no information found" answer with confidence "low" and no
sources. -/
theorem c8_empty_retrieval (q : String) (llm : String → Except String String)
    (h : (analyzeQuery q).1 ≠ .GREETING) :
    ragQuery (fun _ _ _ => .ok []) llm q
      = .ok { answer := "Lo siento, no encontré información relevante para tu consulta en los CVs almacenados.",
              query_type := (analyzeQuery q).1.value, sources := [], confidence := "low" }
    ∧ "Lo siento, no encontré información relevante para tu consulta en los CVs almacenados." ≠ "" := by
  refine ⟨?_, by decide⟩
  have hrag := shouldUseRag_of_ne_greeting h
  rcases hqa : analyzeQuery q with ⟨qt, info⟩
  rw [hqa] at hrag
  unfold ragQuery
  simp only [hqa, hrag, Bool.not_true, Bool.false_eq_true, if_false]
  rfl

/-- C8 witness: the empty-retrieval theorem applied to the concrete
experience query. -/
theorem c8_witness :
    (analyzeQuery "experiencia laboral").1 ≠ .GREETING
    ∧ (ragQuery (fun _ _ _ => .ok []) (fun _ => .ok "x") "experiencia laboral"
        = .ok { answer := "Lo siento, no encontré información relevante para tu consulta en los CVs almacenados.",
                query_type := (analyzeQuery "experiencia laboral").1.value,
                sources := [], confidence := "low" }
      ∧ "Lo siento, no encontré información relevante para tu consulta en los CVs almacenados." ≠ "") :=
  ⟨by decide, c8_empty_retrieval "experiencia laboral" (fun _ => .ok "x") (by decide)⟩

/-- C10: the classifier never returns `UNKNOWN` — the result is always in
the seven-element category set — and consequently the non-greeting fallback
record of `_handle_non_rag_query` ("could not understand") is unreachable
through `query` (every returned record carries the classified category's
value, never "unknown"). -/
theorem c10_no_unknown_category (q : String) :
    (analyzeQuery q).1 ≠ .UNKNOWN
    ∧ (analyzeQuery q).1 ∈ [QueryType.GREETING, .STUDENT_SEARCH, .SKILL_QUERY,
        .EXPERIENCE_QUERY, .EDUCATION_QUERY, .CONTACT_QUERY, .GENERAL_INFO]
    ∧ ∀ (searchFn : String → Nat → Filters → Except String (List SearchResult))
        (llm : String → Except String String) (q' : String),
        ragQuery searchFn llm q ≠ .ok (handleNonRagQuery .UNKNOWN q') := by
  have h1 : (analyzeQuery q).1 ≠ .UNKNOWN := analyzeCore_fst_ne_unknown (normQuery q)
  refine ⟨h1, ?_, ?_⟩
  · cases hc : (analyzeQuery q).1 <;> simp_all
  · intro searchFn llm q' hcontra
    have h2 := ragQuery_ok_query_type hcontra
    have h3 : (handleNonRagQuery .UNKNOWN q').query_type = "unknown" := rfl
    rw [h3] at h2
    exact value_ne_unknown h1 h2.symm

/-- C4 counterexample: a Retrieval Gateway failure on the search call is
NOT contained by `query` — the exception propagates (the `try` of
`_generate_response` does not cover the `vector_store.search` call), so the
result is the error, not an apology record. -/
theorem c4_counterexample :
    ragQuery (fun _ _ _ => .error "connection error") (fun _ => .ok "ok")
        "experiencia laboral"
      = .error "connection error" := by decide

/-- C4 amended: failures of the Answer Synthesizer during query processing
are contained — `query` returns the fixed apology with confidence "error"
instead of raising — but an exception of the Retrieval Gateway on the
search call propagates out of `query` uncaught. -/
theorem c4_failure_containment (q e msg : String) (results : List SearchResult)
    (llm : String → Except String String)
    (h : (analyzeQuery q).1 ≠ .GREETING) (hr : results ≠ []) :
    ragQuery (fun _ _ _ => .ok results) (fun _ => .error msg) q
      = .ok { answer := "Lo siento, ocurrió un error al generar la respuesta. Por favor, intenta de nuevo.",
              query_type := (analyzeQuery q).1.value, sources := [], confidence := "error" }
    ∧ ragQuery (fun _ _ _ => .error e) llm q = .error e := by
  have hrag := shouldUseRag_of_ne_greeting h
  rcases hqa : analyzeQuery q with ⟨qt, info⟩
  rw [hqa] at hrag
  constructor
  · unfold ragQuery
    simp only [hqa, hrag, Bool.not_true, Bool.false_eq_true, if_false]
    cases results with
    | nil => exact absurd rfl hr
    | cons a t =>
        show Except.ok (generateResponse _ _ _ _ _) = _
        rw [generateResponse_llm_error]
  · unfold ragQuery
    simp only [hqa, hrag, Bool.not_true, Bool.false_eq_true, if_false]
    rfl

/-- C4 witness: the amended theorem applied at the concrete experience
query, a one-element result list, and failing collaborators. -/
theorem c4_witness :
    (analyzeQuery "experiencia laboral").1 ≠ .GREETING
    ∧ ([{ content := "x", metadata := {}, scoreText := "0.500" }] : List SearchResult) ≠ []
    ∧ (ragQuery (fun _ _ _ => .ok [{ content := "x", metadata := {}, scoreText := "0.500" }])
          (fun _ => .error "llm down") "experiencia laboral"
        = .ok { answer := "Lo siento, ocurrió un error al generar la respuesta. Por favor, intenta de nuevo.",
                query_type := (analyzeQuery "experiencia laboral").1.value,
                sources := [], confidence := "error" }
      ∧ ragQuery (fun _ _ _ => .error "boom") (fun _ => .ok "x") "experiencia laboral"
          = .error "boom") :=
  ⟨by decide, by decide,
   c4_failure_containment "experiencia laboral" "boom" "llm down"
     [{ content := "x", metadata := {}, scoreText := "0.500" }]
     (fun _ => .ok "x") (by decide) (by decide)⟩

/-- C1: `analyze_query` evaluates the categories in the fixed priority
order greeting → student-lookup → skill-lookup → experience-lookup →
education-lookup → contact-lookup → general-info, the first matching
category winning and short-circuiting all lower-priority categories (each
conjunct asserts the outcome given the higher-priority tests' results,
regardless of what lower-priority rules would match); in particular, any
input matching a greeting rule classifies as greeting with an empty entity
set, and `query` then returns the canned greeting record for EVERY search
collaborator — the Retrieval Gateway is never consulted. -/
theorem c1_priority_order (q : String) :
    (matchPatterns (normQuery q) greetingPats = true →
      analyzeQuery q = (.GREETING, {})
      ∧ ∀ (searchFn : String → Nat → Filters → Except String (List SearchResult))
          (llm : String → Except String String),
          ragQuery searchFn llm q = .ok (handleNonRagQuery .GREETING q))
    ∧ (matchPatterns (normQuery q) greetingPats = false →
        truthy (extractStudentName (normQuery q)) = true →
        (analyzeQuery q).1 = .STUDENT_SEARCH)
    ∧ (matchPatterns (normQuery q) greetingPats = false →
        truthy (extractStudentName (normQuery q)) = false →
        matchPatterns (normQuery q) skillPats = true →
        (analyzeQuery q).1 = .SKILL_QUERY)
    ∧ (matchPatterns (normQuery q) greetingPats = false →
        truthy (extractStudentName (normQuery q)) = false →
        matchPatterns (normQuery q) skillPats = false →
        matchPatterns (normQuery q) experiencePats = true →
        analyzeQuery q = (.EXPERIENCE_QUERY, {}))
    ∧ (matchPatterns (normQuery q) greetingPats = false →
        truthy (extractStudentName (normQuery q)) = false →
        matchPatterns (normQuery q) skillPats = false →
        matchPatterns (normQuery q) experiencePats = false →
        matchPatterns (normQuery q) educationPats = true →
        analyzeQuery q = (.EDUCATION_QUERY, {}))
    ∧ (matchPatterns (normQuery q) greetingPats = false →
        truthy (extractStudentName (normQuery q)) = false →
        matchPatterns (normQuery q) skillPats = false →
        matchPatterns (normQuery q) experiencePats = false →
        matchPatterns (normQuery q) educationPats = false →
        matchPatterns (normQuery q) contactPats = true →
        analyzeQuery q = (.CONTACT_QUERY, {}))
    ∧ (matchPatterns (normQuery q) greetingPats = false →
        truthy (extractStudentName (normQuery q)) = false →
        matchPatterns (normQuery q) skillPats = false →
        matchPatterns (normQuery q) experiencePats = false →
        matchPatterns (normQuery q) educationPats = false →
        matchPatterns (normQuery q) contactPats = false →
        analyzeQuery q = (.GENERAL_INFO, {})) := by
  refine ⟨?_, ?_, ?_, ?_, ?_, ?_, ?_⟩
  · intro hg
    have ha : analyzeQuery q = (.GREETING, {}) := by
      simp [analyzeQuery, analyzeCore, hg]
    refine ⟨ha, ?_⟩
    intro searchFn llm
    unfold ragQuery
    simp only [ha]
    rfl
  · intro h1 h2
    simp [analyzeQuery, analyzeCore, h1, h2]
  · intro h1 h2 h3
    by_cases h4 : truthy (extractSkill (normQuery q)) = true <;>
      simp [analyzeQuery, analyzeCore, h1, h2, h3, h4]
  · intro h1 h2 h3 h4
    simp [analyzeQuery, analyzeCore, h1, h2, h3, h4]
  · intro h1 h2 h3 h4 h5
    simp [analyzeQuery, analyzeCore, h1, h2, h3, h4, h5]
  · intro h1 h2 h3 h4 h5 h6
    simp [analyzeQuery, analyzeCore, h1, h2, h3, h4, h5, h6]
  · intro h1 h2 h3 h4 h5 h6
    simp [analyzeQuery, analyzeCore, h1, h2, h3, h4, h5, h6]

/-- C1 witness: the greeting conjunct applied to the input "hola", whose
normalized form matches the first greeting rule. -/
theorem c1_witness :
    matchPatterns (normQuery "hola") greetingPats = true
    ∧ (analyzeQuery "hola" = (.GREETING, {})
      ∧ ∀ (searchFn : String → Nat → Filters → Except String (List SearchResult))
          (llm : String → Except String String),
          ragQuery searchFn llm "hola" = .ok (handleNonRagQuery .GREETING "hola")) :=
  ⟨by decide, (c1_priority_order "hola").1 (by decide)⟩

/-- A class-run over characters that all satisfy the class consumes the
whole input. -/
lemma classRun_all {p : Char → Bool} :
    ∀ l : List Char, (∀ c ∈ l, p c = true) → classRun p l = (l, [])
  | [], _ => rfl
  | c :: t, h => by
      simp only [classRun, h c (by simp), if_true]
      rw [classRun_all t fun x hx => h x (by simp [hx])]

/-- A class-run over characters that all fail the class consumes nothing. -/
lemma classRun_nil_of_all {p : Char → Bool} :
    ∀ l : List Char, (∀ c ∈ l, p c = false) → classRun p l = ([], l)
  | [], _ => rfl
  | c :: t, h => by simp [classRun, h c (by simp)]

/-- A capturing group at the end of a pattern that has consumed the whole
(nonempty) remaining input succeeds immediately with that input as the
capture. -/
lemma giveBackG_full (l : List Char) (hne : l ≠ []) :
    giveBackG topK l.reverse [] = some ([], some l) := by
  cases hr : l.reverse with
  | nil => exact absurd (by rw [← List.reverse_reverse l, hr]; rfl) hne
  | cons c pre =>
      show (match topK [] (some (c :: pre).reverse) with
            | some r => some r
            | none => giveBackG topK pre (c :: [])) = _
      show some ([], some (c :: pre).reverse) = _
      rw [← hr, List.reverse_reverse]

/-- Characters with code point at least 33 are not whitespace. -/
lemma pyIsSpace_false_of_ge {c : Char} (h : 33 ≤ c.toNat) : pyIsSpace c = false := by
  simp only [pyIsSpace, Bool.or_eq_false_iff, decide_eq_false_iff_not]
  omega

/-- The first student rule matches `busca estudiante llamado X` at position
0, capturing exactly `X`, for every nonempty all-word-character `X`. -/
lemma reMatch_studentPat1 (X : List Char) (hne : X ≠ [])
    (hall : ∀ c ∈ X, pyIsWord c = true) (hnos : ∀ c ∈ X, pyIsSpace c = false) :
    reMatch studentPat1.re ("busca estudiante llamado ".data ++ X) none topK
      = some ([], some X) := by
  have hws : classRun pyIsSpace X = ([], X) := classRun_nil_of_all X hnos
  have hw : classRun pyIsWord X = (X, []) := classRun_all X hall
  have hgG : giveBackG topK X.reverse [] = some ([], some X) := giveBackG_full X hne
  rw [show "busca estudiante llamado ".data
      = ['b','u','s','c','a',' ','e','s','t','u','d','i','a','n','t','e',' ','l','l','a','m','a','d','o',' '] from rfl]
  simp only [List.cons_append, List.nil_append]
  simp [studentPat1, lit, litL, wsPlus, wordGrp, reMatch, giveBack, classRun,
        pyIsSpace, pyIsWord, hws, hw, hgG]

/-- `dropWhile` keeps a list whose elements all fail the test. -/
lemma dropWhile_eq_self_of_all {p : Char → Bool} (l : List Char)
    (h : ∀ c ∈ l, p c = false) : l.dropWhile p = l := by
  cases l with
  | nil => rfl
  | cons c t => simp [List.dropWhile_cons, h c (by simp)]

/-- `strip` fixes a string with no whitespace characters. -/
lemma pyStripL_eq_self_of_no_ws (l : List Char)
    (h : ∀ c ∈ l, pyIsSpace c = false) : pyStripL l = l := by
  unfold pyStripL
  rw [dropWhile_eq_self_of_all l h,
      dropWhile_eq_self_of_all l.reverse (fun c hc => h c (List.mem_reverse.mp hc)),
      List.reverse_reverse]

/-- `_extract_student_name` on `busca estudiante llamado X` returns the
stripped capture of the first rule, which is `X`. -/
lemma extractStudentName_busca (X : List Char) (hne : X ≠ [])
    (hall : ∀ c ∈ X, pyIsWord c = true) (hnos : ∀ c ∈ X, pyIsSpace c = false) :
    extractStudentName ("busca estudiante llamado ".data ++ X) = some (pyStripL X) := by
  have hm := reMatch_studentPat1 X hne hall hnos
  unfold extractStudentName
  show extractFirst (studentPat1 :: _) _ = _
  simp only [extractFirst]
  have hanch : studentPat1.anchored = false := rfl
  simp only [searchPat, hanch, Bool.false_eq_true, if_false]
  have hs : ("busca estudiante llamado ".data ++ X)
      = 'b' :: ("usca estudiante llamado ".data ++ X) := rfl
  rw [hs] at hm ⊢
  simp only [searchFrom]
  rw [hm]
  rfl

/-- `pyLowerChar` fixes lowercase ASCII letters. -/
lemma pyLowerChar_lower {c : Char} (h1 : 97 ≤ c.toNat) (h2 : c.toNat ≤ 122) :
    pyLowerChar c = c := pyLowerChar_id h2 (by omega)

/-- `dropWhile` keeps an appended list whose head fails the test. -/
lemma dropWhile_append_cons {p : Char → Bool} (c : Char) (l m : List Char)
    (h : p c = false) : ((c :: l) ++ m).dropWhile p = (c :: l) ++ m := by
  simp [List.cons_append, List.dropWhile_cons, h]

/-- Normalizing `busca estudiante llamado X` (lowercase-letter `X`) is the
identity on the character list. -/
lemma normQuery_busca (X : String) (hne : X.data ≠ [])
    (halpha : ∀ c ∈ X.data, 97 ≤ c.toNat ∧ c.toNat ≤ 122) :
    normQuery ("busca estudiante llamado " ++ X)
      = "busca estudiante llamado ".data ++ X.data := by
  have hnos : ∀ c ∈ X.data, pyIsSpace c = false := fun c hc =>
    pyIsSpace_false_of_ge (by have := halpha c hc; omega)
  have hdata : ("busca estudiante llamado " ++ X).data
      = "busca estudiante llamado ".data ++ X.data := String.data_append _ _
  have hlowpre : ("busca estudiante llamado ".data).map pyLowerChar
      = "busca estudiante llamado ".data := by decide
  have hlowX : X.data.map pyLowerChar = X.data :=
    map_id_of X.data fun c hc =>
      pyLowerChar_lower (halpha c hc).1 (halpha c hc).2
  unfold normQuery pyLower
  rw [hdata, List.map_append, hlowpre, hlowX]
  unfold pyStripL
  rw [show "busca estudiante llamado ".data
      = 'b' :: "usca estudiante llamado ".data from rfl]
  rw [dropWhile_append_cons 'b' _ _ (by decide)]
  rw [List.reverse_append]
  cases hxr : X.data.reverse with
  | nil => exact absurd (by rw [← List.reverse_reverse X.data, hxr]; rfl) hne
  | cons c pre2 =>
      have hc : pyIsSpace c = false := by
        refine hnos c ?_
        rw [← List.reverse_reverse X.data, hxr]
        simp
      rw [dropWhile_append_cons c pre2 _ hc, ← hxr, List.reverse_append,
          List.reverse_reverse, List.reverse_reverse]

/-- C6 counterexample: the claim as stated fails for the alphabetic token
`X = "Maria"`: the classifier lowercases its input before extraction, so
the extracted entity is "maria", which is not equal to `X`. -/
theorem c6_counterexample :
    analyzeQuery "busca estudiante llamado Maria"
      = (.STUDENT_SEARCH, { student_name := some "maria" })
    ∧ ("maria" : String) ≠ "Maria" := by decide

/-- C6 amended: for every input `busca estudiante llamado X` with `X` a
single nonempty token of lowercase ASCII letters, `analyze_query` returns
student-lookup with the extracted entity `student_name = X` (for
uppercase letters the entity is the lowercased token, as the counterexample
shows). -/
theorem c6_student_lookup_extraction (X : String) (hne : X.data ≠ [])
    (halpha : ∀ c ∈ X.data, 97 ≤ c.toNat ∧ c.toNat ≤ 122) :
    analyzeQuery ("busca estudiante llamado " ++ X)
      = (.STUDENT_SEARCH, { student_name := some X }) := by
  have hword : ∀ c ∈ X.data, pyIsWord c = true := by
    intro c hc
    have h := halpha c hc
    simp only [pyIsWord, Bool.or_eq_true, Bool.and_eq_true, decide_eq_true_eq]
    exact Or.inl (Or.inl (Or.inl (Or.inl (Or.inl ⟨h.1, h.2⟩))))
  have hnos : ∀ c ∈ X.data, pyIsSpace c = false := fun c hc =>
    pyIsSpace_false_of_ge (by have := halpha c hc; omega)
  have hnorm := normQuery_busca X hne halpha
  unfold analyzeQuery
  rw [hnorm]
  unfold analyzeCore
  have hgreet : matchPatterns ("busca estudiante llamado ".data ++ X.data)
      greetingPats = false := rfl
  rw [extractStudentName_busca X.data hne hword hnos,
      pyStripL_eq_self_of_no_ws X.data hnos]
  have htr : truthy (some X.data) = true := by
    unfold truthy
    cases hx : X.data with
    | nil => exact absurd hx hne
    | cons a t => rfl
  simp only [hgreet, htr, Bool.false_eq_true, if_false, if_true]
  rfl

/-- C6 witness: the amended theorem applied at the token "maria". -/
theorem c6_witness :
    ("maria" : String).data ≠ []
    ∧ (∀ c ∈ ("maria" : String).data, 97 ≤ c.toNat ∧ c.toNat ≤ 122)
    ∧ analyzeQuery "busca estudiante llamado maria"
        = (.STUDENT_SEARCH, { student_name := some "maria" }) :=
  ⟨by decide, by decide,
   c6_student_lookup_extraction "maria" (by decide) (by decide)⟩

end RagCV
